import Mathlib

set_option maxRecDepth 8000

/-!
Shallow embedding of the container-provisioning script (entrypoint.py) of the
single-container-wordpress repository, together with proofs about its
site-configuration model and generation logic.

Modelling conventions:
  * Strings are Lean `String` values; the Python f-string templates are
    reproduced verbatim, apostrophes written with the escape \x27.
  * The filesystem is an association list from path to file content; a write
    shadows earlier entries, existence is a successful lookup.
  * Randomness (random.choice over ascii_lowercase) is passed in explicitly as
    a choice function `Fin 32 -> Fin 26`, one draw per generated character.
  * External processes are represented by their exit codes, passed in as
    parameters; environment-variable plumbing carries no further behaviour.
-/

/-- Embedding of string.ascii_lowercase from the Python standard library. -/
def ascii_lowercase : List Char := "abcdefghijklmnopqrstuvwxyz".data

/-- Embedding of random_password (entrypoint.py lines 11-14): 32 characters,
each drawn from ascii_lowercase by the random source `choice`. -/
def random_password (choice : Fin 32 → Fin 26) : String :=
  String.mk ((List.finRange 32).map (fun i =>
    ascii_lowercase.get (Fin.cast (by decide) (choice i))))

/-- The optional per-site settings mapping from the config file: the keys the
code reads are database_name, database_user_name, database_password, alias.
A field is `none` when the key is absent from the mapping. -/
structure SiteOptions where
  database_name : Option String
  database_user_name : Option String
  database_password : Option String
  «alias» : Option (List String)

/-- Data model of a site (class SiteSettings, entrypoint.py lines 16-29). -/
structure SiteSettings where
  domain : String
  safe_name : String
  db_name : String
  db_username : String
  db_password : String
  «alias» : List String
  site_folder : String

/-- Embedding of SiteSettings.__init__ (lines 20-29).  `settings is None` is
an absent mapping; the Python single-character str.replace of the dots in the
key is the character map replacing every dot by an underscore.  `rnd` is the
random source consumed when database_password is absent. -/
def SiteSettings.make (key : String) (settings : Option SiteOptions)
    (rnd : Fin 32 → Fin 26) : SiteSettings :=
  let s := settings.getD ⟨none, none, none, none⟩
  let safe_name : String := String.mk (key.data.map (fun c => if c = '.' then '_' else c))
  ⟨key, safe_name,
   s.database_name.getD safe_name,
   s.database_user_name.getD safe_name,
   s.database_password.getD (random_password rnd),
   s.alias.getD [],
   "/var/www/html/" ++ key⟩

/-- Embedding of SiteSettings.db_script (lines 31-36), the f-string written
out with explicit interpolation points. -/
def SiteSettings.db_script (s : SiteSettings) : String :=
  "\n            CREATE DATABASE IF NOT EXISTS " ++ s.db_name ++
  "; \n            CREATE USER \x27" ++ s.db_username ++
  "\x27@\x27%\x27 IDENTIFIED BY \x27" ++ s.db_password ++
  "\x27 ;\n            GRANT ALL ON " ++ s.db_name ++
  ".* TO \x27" ++ s.db_username ++
  "\x27@\x27%\x27 ;\n        "

/-- Embedding of the serveralias accumulation loop (lines 49-51). -/
def serveralias (aliases : List String) : String :=
  aliases.foldl (fun acc a => acc ++ ("            ServerAlias " ++ a ++ "\n")) ""

/-- The placeholder literal of apache_config (line 39). -/
def placeholder : String := "__ServerName__place__holder"

/-- Embedding of Python str.replace for a non-empty pattern: scan the text
left to right and replace every non-overlapping occurrence of the pattern,
occurrences inside interpolated parts included.  The fuel argument bounds the
number of scanning steps; at least one character is consumed per step, so
initial fuel equal to the length of the scanned text makes the scan complete
(replaceAll below).  For an empty pattern the guard leaves the text unchanged;
the pattern used in this file is never empty. -/
def replaceAllAux (pat repl : List Char) : Nat → List Char → List Char
  | 0, s => s
  | _ + 1, [] => []
  | fuel + 1, c :: cs =>
    if pat.isPrefixOf (c :: cs) && !pat.isEmpty then
      repl ++ replaceAllAux pat repl fuel (cs.drop (pat.length - 1))
    else
      c :: replaceAllAux pat repl fuel cs

/-- Python str.replace on character lists: scan the whole text. -/
def replaceAll (pat repl s : List Char) : List Char :=
  replaceAllAux pat repl s.length s

/-- Embedding of SiteSettings.apache_config (lines 38-57).  The Python code
builds a template interpolating site_folder and the placeholder, then calls
config.replace(placeholder, branch text); str.replace substitutes every
occurrence of the placeholder in the built template, including any occurrence
the interpolated site_folder brought in, and replaceAll mirrors that. -/
def SiteSettings.apache_config (s : SiteSettings) : String :=
  let config : String :=
    "\n        <VirtualHost *:80>\n            DocumentRoot \"" ++ s.site_folder ++
    "\"\n            " ++ placeholder ++ "\n        </VirtualHost>\n        "
  if s.domain = "default" then
    String.mk (replaceAll placeholder.data ("" : String).data config.data)
  else
    String.mk (replaceAll placeholder.data
      ("\n            ServerName " ++ s.domain ++ "\n            " ++
        serveralias s.alias ++ "\n            ").data
      config.data)

/-- Filesystem model: association list from path to content; the most recent
write shadows earlier entries. -/
def FS : Type := List (String × String)

/-- Look a path up in the filesystem. -/
def fsLookup : FS → String → Option String
  | [], _ => none
  | (q, c) :: fs, p => if q = p then some c else fsLookup fs p

/-- Write (create or overwrite) a file. -/
def fsWrite (fs : FS) (p c : String) : FS := (p, c) :: fs

/-- Embedding of os.path.exists on the filesystem model. -/
def fsExists (fs : FS) (p : String) : Bool := (fsLookup fs p).isSome

/-- Append to a file as a write in mode a does: previous content (empty when
the file is absent) followed by the new text. -/
def fsAppend (fs : FS) (p txt : String) : FS :=
  fsWrite fs p ((fsLookup fs p).getD "" ++ txt)

/-- The fixed path of the generated SQL file (line 148). -/
def sqlPath : String := "/docker-entrypoint-initdb.d/wordpress-db_init.sql"

/-- The per-domain vhost path (line 85). -/
def vhostPath (domain : String) : String :=
  "/etc/apache2/sites-enabled/" ++ domain ++ ".conf"

/-- The default vhost path (line 89). -/
def defaultConfPath : String := "/etc/apache2/sites-enabled/default.conf"

/-- The synthesized default vhost text (lines 93-101): a named vhost for
ServerName default that 404-redirects to root plus a wildcard default vhost
that also 404-redirects. -/
def default_vhost_text : String :=
  "\n<VirtualHost *:80>\n  ServerName default\n  Redirect 404 /\n</VirtualHost>\n" ++
  "<VirtualHost _default_:80>\n  Redirect 404 /\n</VirtualHost>\n                    "

/-- The database section of the config file: the two keys init_database reads,
`none` when the key is absent. -/
structure DbSettings where
  root_password_random : Option Bool
  root_password : Option String

/-- The root-password resolution performed by init_database (lines 128-131),
starting from the constructor value None of self.db_password. -/
def resolve_root_password (db : DbSettings) (rnd : Fin 32 → Fin 26) : Option String :=
  if db.root_password_random = some true then some (random_password rnd)
  else
    match db.root_password with
    | some p => some p
    | none => none

/-- Embedding of WpDockerBuilder.init_database (lines 118-141).  `dbExit` is
the exit code of the external init_mariadb.sh process; on success the resolved
root password (held in self.db_password) is returned. -/
def init_database (db : DbSettings) (rnd : Fin 32 → Fin 26) (dbExit : Int) :
    Except String String :=
  match resolve_root_password db rnd with
  | none =>
      Except.error "In database section, please set root_password or use root_password_random:true"
  | some p =>
      if p.length = 0 then
        Except.error "In database section, please set root_password or use root_password_random:true"
      else if dbExit ≠ 0 then Except.error "Error initializing the database"
      else Except.ok p

/-- Embedding of WpDockerBuilder.prepare_site_db_scripts (lines 143-150): the
SQL file is opened in mode a (created empty when absent, existing content
kept), then one db_script block is appended per site in list order. -/
def prepare_site_db_scripts (sites : List SiteSettings) (fs : FS) : FS :=
  let fs0 := fsWrite fs sqlPath ((fsLookup fs sqlPath).getD "")
  sites.foldl (fun acc s => fsAppend acc sqlPath s.db_script) fs0

/-- One iteration of the Apache loop in build_lamp (lines 83-101): write the
per-domain vhost when absent, then write the synthesized default vhost when
absent.  Both checks consult the filesystem state at that moment. -/
def write_vhost_step (fs : FS) (s : SiteSettings) : FS :=
  let conf_path := vhostPath s.domain
  let fs1 := if fsExists fs conf_path then fs else fsWrite fs conf_path s.apache_config
  if fsExists fs1 defaultConfPath then fs1
  else fsWrite fs1 defaultConfPath default_vhost_text

/-- The whole Apache loop of build_lamp over the parsed site list. -/
def write_vhosts (sites : List SiteSettings) (fs : FS) : FS :=
  sites.foldl write_vhost_step fs

/-- Embedding of WpDockerBuilder._parse_sites (lines 67-69): one SiteSettings
per entry, in mapping iteration order; entry number i consumes the random
source `rnds i`. -/
def parse_sites_from (i : Nat) (entries : List (String × Option SiteOptions))
    (rnds : Nat → Fin 32 → Fin 26) : List SiteSettings :=
  match entries with
  | [] => []
  | (k, v) :: rest => SiteSettings.make k v (rnds i) :: parse_sites_from (i + 1) rest rnds

/-- The parsed site list, starting the draw counter at zero. -/
def parse_sites (entries : List (String × Option SiteOptions))
    (rnds : Nat → Fin 32 → Fin 26) : List SiteSettings :=
  parse_sites_from 0 entries rnds

/-- The parsed configuration document: a sites mapping (iteration order kept
as a list) and a database mapping. -/
structure Document where
  sites : List (String × Option SiteOptions)
  database : DbSettings

/-- Embedding of WpDockerBuilder.build_lamp (lines 71-101): parse the sites,
append their SQL blocks, initialize the database (its ValueError and
SystemError are the error branch), then run the Apache loop. -/
def build_lamp (doc : Document) (rnds : Nat → Fin 32 → Fin 26)
    (rootRnd : Fin 32 → Fin 26) (dbExit : Int) (fs : FS) : Except String FS :=
  let sites := parse_sites doc.sites rnds
  let fs1 := prepare_site_db_scripts sites fs
  match init_database doc.database rootRnd dbExit with
  | Except.error e => Except.error e
  | Except.ok _ => Except.ok (write_vhosts sites fs1)

/-- Embedding of WpDockerBuilder.setup_wordpress (lines 103-116): for each
site whose folder is absent, create the folder and run the external setup
process; the exit code `exits s` of that process is not inspected. -/
def setup_wordpress (sites : List SiteSettings) (exits : SiteSettings → Int)
    (fs : FS) : FS :=
  sites.foldl
    (fun acc s =>
      if fsExists acc s.site_folder then acc
      else
        let acc1 := fsWrite acc s.site_folder ""
        let _ := exits s
        acc1)
    fs

/-- Split a character list at newline characters, as str.split of a line-based
inspection of the generated text would: n newline characters give n+1 lines. -/
def splitLines : List Char → List (List Char)
  | [] => [[]]
  | c :: cs =>
    if c = '\n' then [] :: splitLines cs
    else
      match splitLines cs with
      | [] => [[c]]
      | l :: ls => (c :: l) :: ls

theorem splitLines_ne_nil (l : List Char) : splitLines l ≠ [] := by
  induction l with
  | nil => simp [splitLines]
  | cons c cs ih =>
    simp only [splitLines]
    split
    · simp
    · cases h : splitLines cs with
      | nil => simp
      | cons x xs => simp

theorem splitLines_newline (cs : List Char) :
    splitLines ('\n' :: cs) = [] :: splitLines cs := by
  simp [splitLines]

theorem splitLines_cons (c : Char) (cs : List Char) (hc : c ≠ '\n') :
    splitLines (c :: cs) = (c :: (splitLines cs).headI) :: (splitLines cs).tail := by
  simp only [splitLines, if_neg hc]
  cases h : splitLines cs with
  | nil => exact absurd h (splitLines_ne_nil cs)
  | cons l ls => simp

theorem splitLines_headI_tail (l : List Char) :
    splitLines l = (splitLines l).headI :: (splitLines l).tail := by
  cases h : splitLines l with
  | nil => exact absurd h (splitLines_ne_nil l)
  | cons x xs => simp

theorem splitLines_append_nonl (x rest : List Char) (hx : '\n' ∉ x) :
    splitLines (x ++ rest) =
      (x ++ (splitLines rest).headI) :: (splitLines rest).tail := by
  induction x with
  | nil => simpa using splitLines_headI_tail rest
  | cons c cs ih =>
    have hc : c ≠ '\n' := fun h => hx (by simp [h])
    have hcs : '\n' ∉ cs := fun h => hx (List.mem_cons_of_mem _ h)
    rw [List.cons_append, splitLines_cons c _ hc, ih hcs]
    simp

theorem splitLines_line_append (x rest : List Char) (hx : '\n' ∉ x) :
    splitLines (x ++ '\n' :: rest) = x :: splitLines rest := by
  rw [splitLines_append_nonl x _ hx, splitLines_newline]
  simp

/-- A line carrying a ServerName directive: after the indentation it starts
with the directive name and a space. -/
def isSNLine (l : List Char) : Bool :=
  List.isPrefixOf ("ServerName ".data) (l.dropWhile (fun c => c == ' '))

/-- A line carrying a ServerAlias directive. -/
def isSALine (l : List Char) : Bool :=
  List.isPrefixOf ("ServerAlias ".data) (l.dropWhile (fun c => c == ' '))

/-- The ServerName arguments of a vhost text, one per ServerName line, in
textual order. -/
def serverNameTexts (s : String) : List String :=
  ((splitLines s.data).filter isSNLine).map
    (fun l => String.mk ((l.dropWhile (fun c => c == ' ')).drop 11))

/-- The ServerAlias arguments of a vhost text, one per ServerAlias line, in
textual order. -/
def serverAliasTexts (s : String) : List String :=
  ((splitLines s.data).filter isSALine).map
    (fun l => String.mk ((l.dropWhile (fun c => c == ' ')).drop 12))

/-- Character-list forms of the fixed template lines of the vhost text. -/
def vhOpenL : List Char := "        <VirtualHost *:80>".data

def docRootL : List Char := "            DocumentRoot \"".data

def quoteL : List Char := "\"".data

def indentL : List Char := "            ".data

def snL : List Char := "            ServerName ".data

def saL : List Char := "            ServerAlias ".data

def vhCloseL : List Char := "        </VirtualHost>".data

def trailL : List Char := "        ".data

theorem noNL_append {x y : List Char} (hx : '\n' ∉ x) (hy : '\n' ∉ y) :
    '\n' ∉ x ++ y := by
  intro h
  rcases List.mem_append.mp h with h | h
  · exact hx h
  · exact hy h

theorem bool_eq_false {b : Bool} (h : ¬ b = true) : b = false := by
  cases b
  · rfl
  · exact absurd rfl h

theorem isPrefixOf_of_prefix {pat conc : List Char} (t : List Char) (hp : pat <+: conc) :
    List.isPrefixOf pat (conc ++ t) = true := by
  rw [List.isPrefixOf_iff_prefix]
  exact hp.trans ⟨t, rfl⟩

theorem isPrefixOf_append_self (pat t : List Char) :
    List.isPrefixOf pat (pat ++ t) = true :=
  isPrefixOf_of_prefix t ⟨[], by simp⟩

theorem not_prefix_mismatch (pat conc t : List Char) (k : Nat)
    (hk1 : k < pat.length) (hk2 : k < conc.length) (hne : pat[k]? ≠ conc[k]?) :
    List.isPrefixOf pat (conc ++ t) = false := by
  apply bool_eq_false
  rw [List.isPrefixOf_iff_prefix]
  rintro ⟨u, hu⟩
  apply hne
  calc pat[k]? = (pat ++ u)[k]? := (List.getElem?_append_left hk1).symm
    _ = (conc ++ t)[k]? := by rw [hu]
    _ = conc[k]? := List.getElem?_append_left hk2

theorem dropWhile_space_stop (lit t r : List Char)
    (hr : List.dropWhile (fun c => c == ' ') lit = r) (hne : r.isEmpty = false) :
    List.dropWhile (fun c => c == ' ') (lit ++ t) = r ++ t := by
  rw [List.dropWhile_append, hr, hne]
  simp

theorem dropWhile_space_indent (t : List Char) :
    List.dropWhile (fun c => c == ' ') (indentL ++ t) =
      List.dropWhile (fun c => c == ' ') t := by
  have h : (List.dropWhile (fun c => c == ' ') indentL).isEmpty = true := by decide
  rw [List.dropWhile_append, if_pos h]

theorem isSNLine_snL (t : List Char) : isSNLine (snL ++ t) = true := by
  rw [isSNLine, dropWhile_space_stop snL t ("ServerName ".data) (by decide) (by decide)]
  exact isPrefixOf_append_self _ _

theorem isSALine_snL (t : List Char) : isSALine (snL ++ t) = false := by
  rw [isSALine, dropWhile_space_stop snL t ("ServerName ".data) (by decide) (by decide)]
  exact not_prefix_mismatch _ _ _ 6 (by decide) (by decide) (by decide)

theorem isSNLine_saL (t : List Char) : isSNLine (saL ++ t) = false := by
  rw [isSNLine, dropWhile_space_stop saL t ("ServerAlias ".data) (by decide) (by decide)]
  exact not_prefix_mismatch _ _ _ 6 (by decide) (by decide) (by decide)

theorem isSALine_saL (t : List Char) : isSALine (saL ++ t) = true := by
  rw [isSALine, dropWhile_space_stop saL t ("ServerAlias ".data) (by decide) (by decide)]
  exact isPrefixOf_append_self _ _

theorem isSNLine_docRoot (t : List Char) : isSNLine (docRootL ++ t) = false := by
  rw [isSNLine, dropWhile_space_stop docRootL t ("DocumentRoot \"".data) (by decide) (by decide)]
  exact not_prefix_mismatch _ _ _ 0 (by decide) (by decide) (by decide)

theorem isSALine_docRoot (t : List Char) : isSALine (docRootL ++ t) = false := by
  rw [isSALine, dropWhile_space_stop docRootL t ("DocumentRoot \"".data) (by decide) (by decide)]
  exact not_prefix_mismatch _ _ _ 0 (by decide) (by decide) (by decide)

theorem isSNLine_indent (t : List Char) : isSNLine (indentL ++ t) = isSNLine t := by
  rw [isSNLine, isSNLine, dropWhile_space_indent]

theorem isSALine_indent (t : List Char) : isSALine (indentL ++ t) = isSALine t := by
  rw [isSALine, isSALine, dropWhile_space_indent]

theorem snText_extract (t : List Char) :
    (List.dropWhile (fun c => c == ' ') (snL ++ t)).drop 11 = t := by
  rw [dropWhile_space_stop snL t ("ServerName ".data) (by decide) (by decide)]
  exact List.drop_left' (by decide)

theorem saText_extract (t : List Char) :
    (List.dropWhile (fun c => c == ' ') (saL ++ t)).drop 12 = t := by
  rw [dropWhile_space_stop saL t ("ServerAlias ".data) (by decide) (by decide)]
  exact List.drop_left' (by decide)

theorem serveralias_data (aliases : List String) (acc : String) :
    (aliases.foldl (fun acc a => acc ++ ("            ServerAlias " ++ a ++ "\n")) acc).data =
      acc.data ++ (aliases.map (fun a => saL ++ a.data ++ ['\n'])).flatten := by
  induction aliases generalizing acc with
  | nil => simp
  | cons a as ih =>
    rw [List.foldl_cons, ih]
    simp [String.data_append, saL, List.append_assoc]

theorem splitLines_sa_flatten (aliases : List String) (rest : List Char)
    (h : ∀ a ∈ aliases, '\n' ∉ a.data) :
    splitLines ((aliases.map (fun a => saL ++ a.data ++ ['\n'])).flatten ++ rest) =
      (aliases.map (fun a => saL ++ a.data)) ++ splitLines rest := by
  induction aliases with
  | nil => simp
  | cons a as ih =>
    have ha : '\n' ∉ saL ++ a.data :=
      noNL_append (by decide) (h a (List.mem_cons_self a as))
    have hrest : ∀ b ∈ as, '\n' ∉ b.data := fun b hb => h b (List.mem_cons_of_mem _ hb)
    rw [List.map_cons, List.flatten_cons]
    have hshape : (saL ++ a.data ++ ['\n']) ++ ((as.map (fun a => saL ++ a.data ++ ['\n'])).flatten ++ rest) =
        (saL ++ a.data) ++ '\n' :: ((as.map (fun a => saL ++ a.data ++ ['\n'])).flatten ++ rest) := by
      simp [List.append_assoc]
    rw [List.append_assoc, hshape, splitLines_line_append _ _ ha, ih hrest]
    simp

theorem splitLines_serveralias (aliases : List String) (rest : List Char)
    (h : ∀ a ∈ aliases, '\n' ∉ a.data) :
    splitLines ((serveralias aliases).data ++ rest) =
      (aliases.map (fun a => saL ++ a.data)) ++ splitLines rest := by
  rw [serveralias, serveralias_data aliases ""]
  simpa using splitLines_sa_flatten aliases rest h

theorem data_mk (l : List Char) : (String.mk l).data = l := rfl

theorem replaceAllAux_cons_neg (pat repl : List Char) (fuel : Nat) (c : Char)
    (cs : List Char) (h : pat.isPrefixOf (c :: cs) = false) :
    replaceAllAux pat repl (fuel + 1) (c :: cs) = c :: replaceAllAux pat repl fuel cs := by
  simp [replaceAllAux, h]

theorem replaceAllAux_pos (pat repl : List Char) (hp : ¬ pat = []) (fuel : Nat)
    (rest : List Char) :
    replaceAllAux pat repl (pat.length + fuel) (pat ++ rest) =
      repl ++ replaceAllAux pat repl (pat.length - 1 + fuel) rest := by
  cases pat with
  | nil => exact absurd rfl hp
  | cons p pat2 =>
    have hlen : (p :: pat2).length + fuel = (pat2.length + fuel) + 1 := by
      simp [Nat.succ_add]
    have hg : (p :: pat2).isPrefixOf (p :: (pat2 ++ rest)) = true := by
      rw [← List.cons_append]
      exact isPrefixOf_append_self _ _
    rw [hlen, List.cons_append]
    simp [replaceAllAux, hg, List.drop_left]

theorem replaceAllAux_skip (pat repl : List Char) (X : List Char) :
    ∀ (fuel : Nat) (rest : List Char),
    (∀ t, ¬ t = [] → t <:+ X → ¬ pat <+: (t ++ rest)) →
    replaceAllAux pat repl (X.length + fuel) (X ++ rest) =
      X ++ replaceAllAux pat repl fuel rest := by
  induction X with
  | nil =>
    intro fuel rest _
    simp
  | cons c X2 ih =>
    intro fuel rest h
    have hg : pat.isPrefixOf (c :: (X2 ++ rest)) = false := by
      apply bool_eq_false
      rw [List.isPrefixOf_iff_prefix]
      have h2 := h (c :: X2) (by simp) (List.suffix_refl _)
      simpa using h2
    have hlen : (c :: X2).length + fuel = (X2.length + fuel) + 1 := by
      simp [Nat.succ_add]
    rw [List.cons_append, hlen, replaceAllAux_cons_neg pat repl _ c (X2 ++ rest) hg,
      ih fuel rest (fun t ht hs => h t ht (hs.trans (List.suffix_cons c X2)))]
    rfl

theorem replaceAllAux_noocc (pat repl : List Char) :
    ∀ (fuel : Nat) (s : List Char),
    (∀ t, ¬ t = [] → t <:+ s → ¬ pat <+: t) →
    replaceAllAux pat repl fuel s = s := by
  intro fuel
  induction fuel with
  | zero =>
    intro s _
    rfl
  | succ f ih =>
    intro s h
    cases s with
    | nil => rfl
    | cons c cs =>
      have hg : pat.isPrefixOf (c :: cs) = false := by
        apply bool_eq_false
        rw [List.isPrefixOf_iff_prefix]
        exact h (c :: cs) (by simp) (List.suffix_refl _)
      rw [replaceAllAux_cons_neg pat repl f c cs hg,
        ih cs (fun t ht hs => h t ht (hs.trans (List.suffix_cons c cs)))]

theorem prefix_append_cases {pat t rest : List Char} (h : pat <+: t ++ rest) :
    pat <+: t ∨ (t <+: pat ∧ List.drop t.length pat <+: rest) := by
  rcases le_or_lt pat.length t.length with hle | hlt
  · left
    exact List.prefix_of_prefix_length_le h (List.prefix_append t rest) hle
  · right
    have ht : t <+: pat :=
      List.prefix_of_prefix_length_le (List.prefix_append t rest) h (Nat.le_of_lt hlt)
    refine ⟨ht, ?_⟩
    obtain ⟨u, hu⟩ := h
    refine ⟨u, ?_⟩
    have h2 := congrArg (List.drop t.length) hu
    rw [List.drop_append_of_le_length ht.length_le, List.drop_left] at h2
    exact h2

theorem suffix_append_cases (A : List Char) {t B : List Char} (h : t <:+ A ++ B) :
    t <:+ B ∨ ∃ a, a <:+ A ∧ ¬ a = [] ∧ t = a ++ B := by
  induction A with
  | nil =>
    left
    simpa using h
  | cons c A2 ih =>
    rcases List.suffix_cons_iff.mp h with h1 | h2
    · right
      exact ⟨c :: A2, List.suffix_refl _, by simp, by simpa using h1⟩
    · rcases ih h2 with h3 | ⟨a, ha, hne, rfl⟩
      · left
        exact h3
      · right
        exact ⟨a, ha.trans (List.suffix_cons c A2), hne, rfl⟩

theorem infix_of_prefix_suffix {pat a d : List Char} (h1 : pat <+: a) (h2 : a <:+ d) :
    pat <:+: d :=
  List.infix_iff_prefix_suffix.mpr ⟨a, h1, h2⟩

theorem head_eq_of_prefix {l m : List Char} (h : l <+: m) (hl : ¬ l = []) :
    m.head? = l.head? := by
  obtain ⟨u, rfl⟩ := h
  cases l with
  | nil => exact absurd rfl hl
  | cons c cs => rfl

theorem docroot_tails_no_pat :
    ∀ x ∈ ("\n        <VirtualHost *:80>\n            DocumentRoot \"" : String).data.tails,
      ¬ placeholder.data <+: x := by
  decide

theorem docroot_tails_not_prefix :
    ∀ x ∈ ("\n        <VirtualHost *:80>\n            DocumentRoot \"" : String).data.tails,
      x = [] ∨ ¬ x <+: placeholder.data := by
  decide

theorem pre14_tails_no_pat :
    ∀ x ∈ ("/var/www/html/" : String).data.tails, ¬ placeholder.data <+: x := by
  decide

theorem pre14_tails_not_prefix :
    ∀ x ∈ ("/var/www/html/" : String).data.tails, x = [] ∨ ¬ x <+: placeholder.data := by
  decide

theorem t2_tails_no_pat :
    ∀ x ∈ ("\"\n            " : String).data.tails, ¬ placeholder.data <+: x := by
  decide

theorem t2_tails_not_prefix :
    ∀ x ∈ ("\"\n            " : String).data.tails, x = [] ∨ ¬ x <+: placeholder.data := by
  decide

theorem t3_tails_no_pat :
    ∀ x ∈ ("\n        </VirtualHost>\n        " : String).data.tails,
      ¬ placeholder.data <+: x := by
  decide

theorem pat_not_infix_docroot (sfd : List Char)
    (hsf : ¬ placeholder.data <:+: sfd) :
    ¬ placeholder.data <:+:
      (("\n        <VirtualHost *:80>\n            DocumentRoot \"" : String).data ++ sfd) := by
  intro hinf
  rcases List.infix_iff_prefix_suffix.mp hinf with ⟨t, hp, hs⟩
  rcases suffix_append_cases _ hs with h1 | ⟨a, ha, hane, rfl⟩
  · exact hsf (infix_of_prefix_suffix hp h1)
  · rcases prefix_append_cases hp with hp1 | ⟨hp2, _⟩
    · exact docroot_tails_no_pat a ((List.mem_tails _ _).mpr ha) hp1
    · rcases docroot_tails_not_prefix a ((List.mem_tails _ _).mpr ha) with he | hn
      · exact hane he
      · exact hn hp2

theorem pat_not_infix_site_folder (key : String)
    (hk : ¬ placeholder.data <:+: key.data) :
    ¬ placeholder.data <:+: (("/var/www/html/" ++ key : String)).data := by
  rw [String.data_append]
  intro hinf
  rcases List.infix_iff_prefix_suffix.mp hinf with ⟨t, hp, hs⟩
  rcases suffix_append_cases _ hs with h1 | ⟨a, ha, hane, rfl⟩
  · exact hk (infix_of_prefix_suffix hp h1)
  · rcases prefix_append_cases hp with hp1 | ⟨hp2, _⟩
    · exact pre14_tails_no_pat a ((List.mem_tails _ _).mpr ha) hp1
    · rcases pre14_tails_not_prefix a ((List.mem_tails _ _).mpr ha) with he | hn
      · exact hane he
      · exact hn hp2

theorem template_scan_clean (sfd R : List Char)
    (hsf : ¬ placeholder.data <:+: sfd) :
    ∀ t, ¬ t = [] →
      t <:+ ("\n        <VirtualHost *:80>\n            DocumentRoot \"" : String).data ++
        sfd ++ ("\"\n            " : String).data →
      ¬ placeholder.data <+: (t ++ R) := by
  intro t htne hts hpre
  have hchars : ∀ k, k < placeholder.data.length →
      ¬ (placeholder.data.drop k).head? = some '\"' := by decide
  rcases suffix_append_cases
      (("\n        <VirtualHost *:80>\n            DocumentRoot \"" : String).data ++ sfd) hts
    with h1 | ⟨a, ha, hane, rfl⟩
  · rcases prefix_append_cases hpre with hp1 | ⟨hp2, _⟩
    · exact t2_tails_no_pat t ((List.mem_tails _ _).mpr h1) hp1
    · rcases t2_tails_not_prefix t ((List.mem_tails _ _).mpr h1) with he | hn
      · exact htne he
      · exact hn hp2
  · rw [List.append_assoc] at hpre
    rcases prefix_append_cases hpre with hp1 | ⟨hp2, hp3⟩
    · exact pat_not_infix_docroot sfd hsf (infix_of_prefix_suffix hp1 ha)
    · rcases Nat.lt_or_ge a.length placeholder.data.length with hlt | hge
      · have hne2 : ¬ List.drop a.length placeholder.data = [] := by
          apply List.ne_nil_of_length_pos
          rw [List.length_drop]
          omega
        have hh := head_eq_of_prefix hp3 hne2
        have hT2 : ((("\"\n            " : String).data) ++ R).head? = some '\"' := by
          rw [show (("\"\n            " : String).data)
            = '\"' :: ("\n            " : String).data from by decide, List.cons_append]
          rfl
        rw [hT2] at hh
        exact hchars a.length hlt hh.symm
      · have heq : a = placeholder.data :=
          List.IsPrefix.eq_of_length hp2 (Nat.le_antisymm hp2.length_le hge)
        refine pat_not_infix_docroot sfd hsf (infix_of_prefix_suffix ?_ ha)
        rw [heq]

theorem replaceAll_template (sfd repl : List Char)
    (hsf : ¬ placeholder.data <:+: sfd) :
    replaceAll placeholder.data repl
      (("\n        <VirtualHost *:80>\n            DocumentRoot \"" : String).data ++ sfd ++
        ("\"\n            " : String).data ++ placeholder.data ++
        ("\n        </VirtualHost>\n        " : String).data) =
      ("\n        <VirtualHost *:80>\n            DocumentRoot \"" : String).data ++ sfd ++
        ("\"\n            " : String).data ++ repl ++
        ("\n        </VirtualHost>\n        " : String).data := by
  rw [replaceAll]
  have hshape :
      ("\n        <VirtualHost *:80>\n            DocumentRoot \"" : String).data ++ sfd ++
        ("\"\n            " : String).data ++ placeholder.data ++
        ("\n        </VirtualHost>\n        " : String).data =
      (("\n        <VirtualHost *:80>\n            DocumentRoot \"" : String).data ++ sfd ++
        ("\"\n            " : String).data) ++
        (placeholder.data ++ ("\n        </VirtualHost>\n        " : String).data) := by
    simp [List.append_assoc]
  rw [hshape]
  have hlen :
      ((("\n        <VirtualHost *:80>\n            DocumentRoot \"" : String).data ++ sfd ++
        ("\"\n            " : String).data) ++
        (placeholder.data ++ ("\n        </VirtualHost>\n        " : String).data)).length =
      (("\n        <VirtualHost *:80>\n            DocumentRoot \"" : String).data ++ sfd ++
        ("\"\n            " : String).data).length +
        (placeholder.data.length +
          ("\n        </VirtualHost>\n        " : String).data.length) := by
    simp only [List.length_append]
  rw [hlen,
    replaceAllAux_skip placeholder.data repl _ _ _
      (template_scan_clean sfd
        (placeholder.data ++ ("\n        </VirtualHost>\n        " : String).data) hsf),
    replaceAllAux_pos placeholder.data repl (by decide) _ _,
    replaceAllAux_noocc placeholder.data repl _ _
      (fun t _ hts hpre =>
        t3_tails_no_pat t ((List.mem_tails _ _).mpr hts) hpre)]
  simp [List.append_assoc]

theorem apache_config_data (s : SiteSettings) (hd : ¬ s.domain = "default")
    (hsf : ¬ placeholder.data <:+: s.site_folder.data) :
    (s.apache_config).data =
      '\n' :: (vhOpenL ++ '\n' :: (docRootL ++ s.site_folder.data ++ quoteL ++ '\n' ::
        (indentL ++ '\n' :: (snL ++ s.domain.data ++ '\n' ::
        (indentL ++ ((serveralias s.alias).data ++ '\n' ::
        (indentL ++ '\n' :: (vhCloseL ++ '\n' :: trailL)))))))) := by
  have key := replaceAll_template s.site_folder.data
    ("\n            ServerName " ++ s.domain ++ "\n            " ++
      serveralias s.alias ++ "\n            ").data hsf
  simp only [SiteSettings.apache_config, if_neg hd, String.data_append, data_mk]
  simp only [String.data_append] at key
  rw [key]
  simp [vhOpenL, docRootL, quoteL, indentL, snL, vhCloseL, trailL, List.append_assoc]

theorem apache_config_splitLines (s : SiteSettings) (hd : ¬ s.domain = "default")
    (hsf : '\n' ∉ s.site_folder.data) (hdom : '\n' ∉ s.domain.data)
    (hal : ∀ a ∈ s.alias, '\n' ∉ a.data)
    (hph : ¬ placeholder.data <:+: s.site_folder.data) :
    splitLines (s.apache_config).data =
      [] :: vhOpenL ::
      (docRootL ++ s.site_folder.data ++ quoteL) ::
      indentL ::
      (snL ++ s.domain.data) ::
      (indentL ++ ((s.alias.map (fun a => saL ++ a.data)) ++ [[], indentL, vhCloseL, trailL]).headI) ::
      ((s.alias.map (fun a => saL ++ a.data)) ++ [[], indentL, vhCloseL, trailL]).tail := by
  have htail : splitLines ('\n' :: (indentL ++ '\n' :: (vhCloseL ++ '\n' :: trailL)))
      = [[], indentL, vhCloseL, trailL] := by decide
  rw [apache_config_data s hd hph, splitLines_newline,
    splitLines_line_append vhOpenL _ (by decide),
    splitLines_line_append (docRootL ++ s.site_folder.data ++ quoteL) _
      (noNL_append (noNL_append (by decide) hsf) (by decide)),
    splitLines_line_append indentL _ (by decide),
    splitLines_line_append (snL ++ s.domain.data) _ (noNL_append (by decide) hdom),
    splitLines_append_nonl indentL _ (by decide),
    splitLines_serveralias s.alias _ hal, htail]

theorem mk_data (s : String) : String.mk s.data = s := rfl

theorem isSNLine_nil : isSNLine [] = false := by decide

theorem isSALine_nil : isSALine [] = false := by decide

theorem isSNLine_vhOpen : isSNLine vhOpenL = false := by decide

theorem isSALine_vhOpen : isSALine vhOpenL = false := by decide

theorem isSNLine_indentL : isSNLine indentL = false := by decide

theorem isSALine_indentL : isSALine indentL = false := by decide

theorem isSNLine_vhClose : isSNLine vhCloseL = false := by decide

theorem isSALine_vhClose : isSALine vhCloseL = false := by decide

theorem isSNLine_trail : isSNLine trailL = false := by decide

theorem isSALine_trail : isSALine trailL = false := by decide

/-- C4 (amended): for every constructed Site whose domain and aliases contain
no newline character and whose domain does not contain the placeholder string
of the template, apache_config of the sentinel domain default has no
ServerName and no ServerAlias line, and apache_config of any other domain has
exactly one ServerName line, naming the domain, and exactly one ServerAlias
line per element of the alias list, carrying the aliases in input order.  (A
domain carrying the placeholder makes str.replace substitute inside the
DocumentRoot line as well, duplicating the ServerName block.) -/
theorem apache_config_server_lines (key : String) (settings : Option SiteOptions)
    (rnd : Fin 32 → Fin 26)
    (hkey : '\n' ∉ key.data)
    (halias : ∀ a ∈ (SiteSettings.make key settings rnd).alias, '\n' ∉ a.data)
    (hph : ¬ placeholder.data <:+: key.data) :
    (key = "default" →
      serverNameTexts (SiteSettings.make key settings rnd).apache_config = [] ∧
      serverAliasTexts (SiteSettings.make key settings rnd).apache_config = []) ∧
    (¬ key = "default" →
      serverNameTexts (SiteSettings.make key settings rnd).apache_config = [key] ∧
      serverAliasTexts (SiteSettings.make key settings rnd).apache_config =
        (SiteSettings.make key settings rnd).alias) := by
  constructor
  · intro hdef
    subst hdef
    have e : (SiteSettings.make "default" settings rnd).apache_config =
        String.mk (replaceAll placeholder.data ("" : String).data
          ("\n        <VirtualHost *:80>\n            DocumentRoot \"" ++
            ("/var/www/html/" ++ "default") ++ "\"\n            " ++ placeholder ++
            "\n        </VirtualHost>\n        " : String).data) := rfl
    rw [e]
    constructor
    · decide
    · decide
  · intro hne
    have hdm : (SiteSettings.make key settings rnd).domain = key := rfl
    have hd2 : ¬ (SiteSettings.make key settings rnd).domain = "default" := by
      rw [hdm]
      exact hne
    have e2 : (SiteSettings.make key settings rnd).site_folder = "/var/www/html/" ++ key := rfl
    have hsf : '\n' ∉ (SiteSettings.make key settings rnd).site_folder.data := by
      rw [e2, String.data_append]
      exact noNL_append (by decide) hkey
    have hdom : '\n' ∉ (SiteSettings.make key settings rnd).domain.data := by
      rw [hdm]
      exact hkey
    have hph2 : ¬ placeholder.data <:+: (SiteSettings.make key settings rnd).site_folder.data := by
      rw [e2]
      exact pat_not_infix_site_folder key hph
    have hsplit := apache_config_splitLines (SiteSettings.make key settings rnd)
      hd2 hsf hdom halias hph2
    rw [hdm] at hsplit
    cases hal : (SiteSettings.make key settings rnd).alias with
    | nil =>
      rw [hal] at hsplit
      constructor
      · rw [serverNameTexts, hsplit]
        simp [List.filter_cons, List.append_assoc, isSNLine_nil, isSNLine_vhOpen,
          isSNLine_indentL, isSNLine_vhClose, isSNLine_trail, isSNLine_docRoot,
          isSNLine_snL, isSNLine_indent, snText_extract, mk_data]
      · rw [serverAliasTexts, hsplit]
        simp [List.filter_cons, List.append_assoc, isSALine_nil, isSALine_vhOpen,
          isSALine_indentL, isSALine_vhClose, isSALine_trail, isSALine_docRoot,
          isSALine_snL, isSALine_indent]
    | cons a as =>
      rw [hal] at hsplit
      constructor
      · rw [serverNameTexts, hsplit]
        simp [List.filter_cons, List.filter_append, List.filter_map,
          List.append_assoc, Function.comp, isSNLine_nil, isSNLine_vhOpen,
          isSNLine_indentL, isSNLine_vhClose, isSNLine_trail, isSNLine_docRoot,
          isSNLine_snL, isSNLine_saL, isSNLine_indent, snText_extract, mk_data]
      · rw [serverAliasTexts, hsplit]
        simp [List.filter_cons, List.filter_append, List.filter_map, List.map_map,
          List.append_assoc, Function.comp, isSALine_nil, isSALine_vhOpen,
          isSALine_indentL, isSALine_vhClose, isSALine_trail, isSALine_docRoot,
          isSALine_snL, isSALine_saL, isSALine_indent, dropWhile_space_indent,
          saText_extract, mk_data]
        have hp : (isSALine ∘ fun (a : String) => saL ++ a.data) = fun _ => true := by
          funext x
          simp [Function.comp, isSALine_saL]
        have hm : ((fun (l : List Char) => String.mk (List.drop 12 (List.dropWhile (fun c => c == ' ') l))) ∘
            fun (a : String) => saL ++ a.data) = fun (a : String) => a := by
          funext x
          simp [Function.comp, saText_extract, mk_data]
        rw [hp, hm]
        simp

/-- Character-list forms of the fixed template pieces of the SQL text. -/
def cdbL : List Char := "            CREATE DATABASE IF NOT EXISTS ".data

def scL : List Char := "; ".data

def cuL : List Char := "            CREATE USER \x27".data

def midL : List Char := "\x27@\x27%\x27 IDENTIFIED BY \x27".data

def gEndL : List Char := "\x27 ;".data

def gL : List Char := "            GRANT ALL ON ".data

def toL : List Char := ".* TO \x27".data

def uEndL : List Char := "\x27@\x27%\x27 ;".data

/-- A line whose statement is a conditional database creation. -/
def isCreateDbLine (l : List Char) : Bool :=
  List.isPrefixOf ("CREATE DATABASE IF NOT EXISTS ".data) (l.dropWhile (fun c => c == ' '))

/-- A line whose statement is a user creation (conditional or not). -/
def isCreateUserLine (l : List Char) : Bool :=
  List.isPrefixOf ("CREATE USER ".data) (l.dropWhile (fun c => c == ' '))

/-- A line whose statement is a conditional user creation. -/
def isCondCreateUserLine (l : List Char) : Bool :=
  List.isPrefixOf ("CREATE USER IF NOT EXISTS".data) (l.dropWhile (fun c => c == ' '))

/-- A line whose statement is a grant. -/
def isGrantLine (l : List Char) : Bool :=
  List.isPrefixOf ("GRANT ".data) (l.dropWhile (fun c => c == ' '))

theorem db_script_data (s : SiteSettings) :
    (s.db_script).data =
      '\n' :: ((cdbL ++ s.db_name.data ++ scL) ++ '\n' ::
        ((cuL ++ s.db_username.data ++ midL ++ s.db_password.data ++ gEndL) ++ '\n' ::
        ((gL ++ s.db_name.data ++ toL ++ s.db_username.data ++ uEndL) ++ '\n' :: trailL))) := by
  have h1 : ("\n            CREATE DATABASE IF NOT EXISTS " : String).data = '\n' :: cdbL := by
    decide
  have h2 : ("; \n            CREATE USER \x27" : String).data = scL ++ '\n' :: cuL := by
    decide
  have h3 : ("\x27 ;\n            GRANT ALL ON " : String).data = gEndL ++ '\n' :: gL := by
    decide
  have h4 : ("\x27@\x27%\x27 ;\n        " : String).data = uEndL ++ '\n' :: trailL := by
    decide
  simp only [SiteSettings.db_script, String.data_append, h1, h2, h3, h4]
  simp [cdbL, scL, cuL, midL, gEndL, gL, toL, uEndL, trailL, List.append_assoc]

theorem db_script_splitLines (s : SiteSettings)
    (hdb : '\n' ∉ s.db_name.data) (hu : '\n' ∉ s.db_username.data)
    (hp : '\n' ∉ s.db_password.data) :
    splitLines (s.db_script).data =
      [[], cdbL ++ s.db_name.data ++ scL,
       cuL ++ s.db_username.data ++ midL ++ s.db_password.data ++ gEndL,
       gL ++ s.db_name.data ++ toL ++ s.db_username.data ++ uEndL,
       trailL] := by
  have htr : splitLines trailL = [trailL] := by decide
  rw [db_script_data, splitLines_newline,
    splitLines_line_append (cdbL ++ s.db_name.data ++ scL) _
      (noNL_append (noNL_append (by decide) hdb) (by decide)),
    splitLines_line_append (cuL ++ s.db_username.data ++ midL ++ s.db_password.data ++ gEndL) _
      (noNL_append (noNL_append (noNL_append (noNL_append (by decide) hu) (by decide)) hp)
        (by decide)),
    splitLines_line_append (gL ++ s.db_name.data ++ toL ++ s.db_username.data ++ uEndL) _
      (noNL_append (noNL_append (noNL_append (noNL_append (by decide) hdb) (by decide)) hu)
        (by decide)),
    htr]

theorem isCreateDbLine_db (t : List Char) : isCreateDbLine (cdbL ++ t) = true := by
  rw [isCreateDbLine,
    dropWhile_space_stop cdbL t ("CREATE DATABASE IF NOT EXISTS ".data) (by decide) (by decide)]
  exact isPrefixOf_append_self _ _

theorem isCreateUserLine_db (t : List Char) : isCreateUserLine (cdbL ++ t) = false := by
  rw [isCreateUserLine,
    dropWhile_space_stop cdbL t ("CREATE DATABASE IF NOT EXISTS ".data) (by decide) (by decide)]
  exact not_prefix_mismatch _ _ _ 7 (by decide) (by decide) (by decide)

theorem isCondCreateUserLine_db (t : List Char) : isCondCreateUserLine (cdbL ++ t) = false := by
  rw [isCondCreateUserLine,
    dropWhile_space_stop cdbL t ("CREATE DATABASE IF NOT EXISTS ".data) (by decide) (by decide)]
  exact not_prefix_mismatch _ _ _ 7 (by decide) (by decide) (by decide)

theorem isGrantLine_db (t : List Char) : isGrantLine (cdbL ++ t) = false := by
  rw [isGrantLine,
    dropWhile_space_stop cdbL t ("CREATE DATABASE IF NOT EXISTS ".data) (by decide) (by decide)]
  exact not_prefix_mismatch _ _ _ 0 (by decide) (by decide) (by decide)

theorem isCreateDbLine_cu (t : List Char) : isCreateDbLine (cuL ++ t) = false := by
  rw [isCreateDbLine,
    dropWhile_space_stop cuL t ("CREATE USER \x27".data) (by decide) (by decide)]
  exact not_prefix_mismatch _ _ _ 7 (by decide) (by decide) (by decide)

theorem isCreateUserLine_cu (t : List Char) : isCreateUserLine (cuL ++ t) = true := by
  rw [isCreateUserLine,
    dropWhile_space_stop cuL t ("CREATE USER \x27".data) (by decide) (by decide)]
  exact isPrefixOf_of_prefix _ (by decide)

theorem isCondCreateUserLine_cu (t : List Char) : isCondCreateUserLine (cuL ++ t) = false := by
  rw [isCondCreateUserLine,
    dropWhile_space_stop cuL t ("CREATE USER \x27".data) (by decide) (by decide)]
  exact not_prefix_mismatch _ _ _ 12 (by decide) (by decide) (by decide)

theorem isGrantLine_cu (t : List Char) : isGrantLine (cuL ++ t) = false := by
  rw [isGrantLine,
    dropWhile_space_stop cuL t ("CREATE USER \x27".data) (by decide) (by decide)]
  exact not_prefix_mismatch _ _ _ 0 (by decide) (by decide) (by decide)

theorem isCreateDbLine_g (t : List Char) : isCreateDbLine (gL ++ t) = false := by
  rw [isCreateDbLine,
    dropWhile_space_stop gL t ("GRANT ALL ON ".data) (by decide) (by decide)]
  exact not_prefix_mismatch _ _ _ 0 (by decide) (by decide) (by decide)

theorem isCreateUserLine_g (t : List Char) : isCreateUserLine (gL ++ t) = false := by
  rw [isCreateUserLine,
    dropWhile_space_stop gL t ("GRANT ALL ON ".data) (by decide) (by decide)]
  exact not_prefix_mismatch _ _ _ 0 (by decide) (by decide) (by decide)

theorem isCondCreateUserLine_g (t : List Char) : isCondCreateUserLine (gL ++ t) = false := by
  rw [isCondCreateUserLine,
    dropWhile_space_stop gL t ("GRANT ALL ON ".data) (by decide) (by decide)]
  exact not_prefix_mismatch _ _ _ 0 (by decide) (by decide) (by decide)

theorem isGrantLine_g (t : List Char) : isGrantLine (gL ++ t) = true := by
  rw [isGrantLine,
    dropWhile_space_stop gL t ("GRANT ALL ON ".data) (by decide) (by decide)]
  exact isPrefixOf_of_prefix _ (by decide)

/-- C1 (amended): for every Site whose database name, user name and password
contain no newline character, the SQL text of db_script has exactly one
conditional database-creation statement line, naming the database of the
Site, exactly one user-creation statement line, naming the user and the
password, exactly one grant statement line granting ALL on the database to
the user at any host, and no conditional user-creation line: the CREATE USER
the code emits carries no IF NOT EXISTS clause. -/
theorem db_script_statements (s : SiteSettings)
    (hdb : '\n' ∉ s.db_name.data) (hu : '\n' ∉ s.db_username.data)
    (hp : '\n' ∉ s.db_password.data) :
    (splitLines (s.db_script).data).filter isCreateDbLine
        = [cdbL ++ s.db_name.data ++ scL] ∧
    (splitLines (s.db_script).data).filter isCreateUserLine
        = [cuL ++ s.db_username.data ++ midL ++ s.db_password.data ++ gEndL] ∧
    (splitLines (s.db_script).data).filter isCondCreateUserLine = [] ∧
    (splitLines (s.db_script).data).filter isGrantLine
        = [gL ++ s.db_name.data ++ toL ++ s.db_username.data ++ uEndL] := by
  rw [db_script_splitLines s hdb hu hp]
  refine ⟨?_, ?_, ?_, ?_⟩
  · simp [List.filter_cons, List.append_assoc, isCreateDbLine_db, isCreateDbLine_cu,
      isCreateDbLine_g, show isCreateDbLine [] = false from by decide,
      show isCreateDbLine trailL = false from by decide]
  · simp [List.filter_cons, List.append_assoc, isCreateUserLine_db, isCreateUserLine_cu,
      isCreateUserLine_g, show isCreateUserLine [] = false from by decide,
      show isCreateUserLine trailL = false from by decide]
  · simp [List.filter_cons, List.append_assoc, isCondCreateUserLine_db,
      isCondCreateUserLine_cu, isCondCreateUserLine_g,
      show isCondCreateUserLine [] = false from by decide,
      show isCondCreateUserLine trailL = false from by decide]
  · simp [List.filter_cons, List.append_assoc, isGrantLine_db, isGrantLine_cu,
      isGrantLine_g, show isGrantLine [] = false from by decide,
      show isGrantLine trailL = false from by decide]

/-- C1 witness: the amended statement instantiated at a concrete Site. -/
theorem db_script_statements_witness :
    (splitLines ((SiteSettings.make "a.com" (some ⟨none, none, some "pw", none⟩)
        (fun _ => 0)).db_script).data).filter isCondCreateUserLine = [] :=
  (db_script_statements (SiteSettings.make "a.com" (some ⟨none, none, some "pw", none⟩)
    (fun _ => 0)) (by decide) (by decide) (by decide)).2.2.1

/-- C1 counterexample: the claim as stated asks for exactly one conditional
user creation; on the Site of the a.com entry the SQL text has none, because
the emitted CREATE USER statement is unconditional. -/
theorem db_script_cond_user_counterexample :
    ¬ ((splitLines ((SiteSettings.make "a.com" (some ⟨none, none, some "pw", none⟩)
        (fun _ => 0)).db_script).data).filter isCondCreateUserLine).length = 1 := by
  decide

theorem random_password_ne_empty (rnd : Fin 32 → Fin 26) : ¬ random_password rnd = "" := by
  intro h
  have h2 := congrArg String.data h
  simp only [random_password] at h2
  have h3 := List.map_eq_nil_iff.mp h2
  exact absurd h3 (by decide)

/-- C3 (amended): constructing a Site from a non-empty domain key leaves none
of db_name, db_username, db_password empty, provided every explicitly supplied
option value is itself non-empty; absent options fall back to the safe name
derived from the key, or to a generated random password, and those fallbacks
are never empty. -/
theorem site_fields_nonempty (key : String) (settings : Option SiteOptions)
    (rnd : Fin 32 → Fin 26)
    (hkey : ¬ key = "")
    (hn : ∀ v, (settings.getD ⟨none, none, none, none⟩).database_name = some v → ¬ v = "")
    (hu : ∀ v, (settings.getD ⟨none, none, none, none⟩).database_user_name = some v → ¬ v = "")
    (hpw : ∀ v, (settings.getD ⟨none, none, none, none⟩).database_password = some v → ¬ v = "") :
    ¬ (SiteSettings.make key settings rnd).db_name = "" ∧
    ¬ (SiteSettings.make key settings rnd).db_username = "" ∧
    ¬ (SiteSettings.make key settings rnd).db_password = "" := by
  have hsafe : ¬ String.mk (key.data.map (fun c => if c = '.' then '_' else c)) = "" := by
    intro h
    apply hkey
    have h2 := congrArg String.data h
    simp only at h2
    exact String.ext (List.map_eq_nil_iff.mp h2)
  refine ⟨?_, ?_, ?_⟩
  · have e : (SiteSettings.make key settings rnd).db_name =
        ((settings.getD ⟨none, none, none, none⟩).database_name).getD
          (String.mk (key.data.map (fun c => if c = '.' then '_' else c))) := rfl
    rw [e]
    cases hv : (settings.getD ⟨none, none, none, none⟩).database_name with
    | none => exact hsafe
    | some v => exact hn v hv
  · have e : (SiteSettings.make key settings rnd).db_username =
        ((settings.getD ⟨none, none, none, none⟩).database_user_name).getD
          (String.mk (key.data.map (fun c => if c = '.' then '_' else c))) := rfl
    rw [e]
    cases hv : (settings.getD ⟨none, none, none, none⟩).database_user_name with
    | none => exact hsafe
    | some v => exact hu v hv
  · have e : (SiteSettings.make key settings rnd).db_password =
        ((settings.getD ⟨none, none, none, none⟩).database_password).getD
          (random_password rnd) := rfl
    rw [e]
    cases hv : (settings.getD ⟨none, none, none, none⟩).database_password with
    | none => exact random_password_ne_empty rnd
    | some v => exact hpw v hv

/-- C3 witness: the amended statement instantiated at a concrete Site. -/
theorem site_fields_nonempty_witness :
    ¬ (SiteSettings.make "a.com" (some ⟨some "db", none, none, none⟩)
        (fun _ => 0)).db_name = "" ∧
    ¬ (SiteSettings.make "a.com" (some ⟨some "db", none, none, none⟩)
        (fun _ => 0)).db_username = "" ∧
    ¬ (SiteSettings.make "a.com" (some ⟨some "db", none, none, none⟩)
        (fun _ => 0)).db_password = "" :=
  site_fields_nonempty "a.com" (some ⟨some "db", none, none, none⟩) (fun _ => 0)
    (by decide)
    (fun v hv => by injection hv with h; exact fun he => by simp [← h] at he)
    (fun v hv => nomatch hv)
    (fun v hv => nomatch hv)

/-- C3 counterexample: an options mapping that supplies database_name as the
empty string produces a Site whose db_name is empty, so the unconditional
never-empty claim fails. -/
theorem site_empty_field_counterexample :
    (SiteSettings.make "a" (some ⟨some "", none, some "pw", none⟩)
      (fun _ => 0)).db_name = "" := by
  decide

/-- C2: init_database resolves the root password by generating a 32-character
lowercase-alphabetic string when root_password_random is true, by taking
root_password verbatim otherwise when it is present, and raises the
configuration error, independently of the external process, whenever the
resolved password is absent or empty. -/
theorem init_database_resolution (db : DbSettings) (rnd : Fin 32 → Fin 26) (e : Int) :
    (db.root_password_random = some true →
      resolve_root_password db rnd = some (random_password rnd) ∧
      (random_password rnd).length = 32 ∧
      ∀ c ∈ (random_password rnd).data, c ∈ ascii_lowercase) ∧
    (¬ db.root_password_random = some true →
      ∀ p, db.root_password = some p → resolve_root_password db rnd = some p) ∧
    ((resolve_root_password db rnd = none ∨ resolve_root_password db rnd = some "") →
      init_database db rnd e = Except.error
        "In database section, please set root_password or use root_password_random:true") := by
  refine ⟨?_, ?_, ?_⟩
  · intro h
    refine ⟨by simp [resolve_root_password, h], rfl, ?_⟩
    intro c hc
    rcases List.mem_map.mp hc with ⟨i, _, rfl⟩
    exact List.get_mem _ _ _
  · intro h p hp
    simp [resolve_root_password, if_neg h, hp]
  · intro h
    rcases h with h | h
    · simp [init_database, h]
    · simp [init_database, h]

/-- C2 witness: the three resolution branches instantiated concretely. -/
theorem init_database_resolution_witness :
    resolve_root_password ⟨some true, none⟩ (fun _ => 0)
        = some (random_password (fun _ => 0)) ∧
    resolve_root_password ⟨none, some "x"⟩ (fun _ => 0) = some "x" ∧
    init_database ⟨none, none⟩ (fun _ => 0) 0 = Except.error
      "In database section, please set root_password or use root_password_random:true" :=
  ⟨((init_database_resolution ⟨some true, none⟩ (fun _ => 0) 0).1 rfl).1,
   (init_database_resolution ⟨none, some "x"⟩ (fun _ => 0) 0).2.1 (by simp) "x" rfl,
   (init_database_resolution ⟨none, none⟩ (fun _ => 0) 0).2.2 (Or.inl rfl)⟩

/-- C9: init_database raises exactly when the external database-initialization
process exits non-zero (given a resolvable, non-empty root password), while
setup_wordpress is insensitive to the exit status of the per-site setup
process: its result is the same for every exit-code assignment, and it has no
error outcome at all. -/
theorem init_db_fatal_setup_unchecked :
    (∀ (db : DbSettings) (rnd : Fin 32 → Fin 26) (e : Int) (p : String),
      resolve_root_password db rnd = some p → ¬ p = "" →
      ((∃ msg, init_database db rnd e = Except.error msg) ↔ ¬ e = 0)) ∧
    (∀ (sites : List SiteSettings) (f g : SiteSettings → Int) (fs : FS),
      setup_wordpress sites f fs = setup_wordpress sites g fs) := by
  constructor
  · intro db rnd e p hres hp
    have hlen : ¬ p.length = 0 := by
      intro h0
      exact hp (String.ext (List.length_eq_zero.mp h0))
    constructor
    · rintro ⟨msg, hmsg⟩ he
      simp only [init_database, hres] at hmsg
      rw [if_neg hlen, if_neg (fun hne => hne he)] at hmsg
      exact Except.noConfusion hmsg
    · intro he
      refine ⟨"Error initializing the database", ?_⟩
      simp only [init_database, hres]
      rw [if_neg hlen, if_pos he]
  · intro sites f g fs
    rfl

/-- C9 witness: a failing exit code of the database init yields the halt
error, a succeeding one does not, and a failing per-site setup changes
nothing about the orchestration result. -/
theorem init_db_fatal_setup_unchecked_witness :
    ((∃ msg, init_database ⟨none, some "x"⟩ (fun _ => 0) 1 = Except.error msg) ↔
      ¬ (1 : Int) = 0) ∧
    setup_wordpress [] (fun _ => 1) [] = setup_wordpress [] (fun _ => 0) [] :=
  ⟨init_db_fatal_setup_unchecked.1 ⟨none, some "x"⟩ (fun _ => 0) 1 "x" rfl (by decide),
   init_db_fatal_setup_unchecked.2 [] (fun _ => 1) (fun _ => 0) []⟩

theorem string_foldl_append (l : List String) (a : String) :
    l.foldl (fun r s => r ++ s) a = a ++ l.foldl (fun r s => r ++ s) "" := by
  induction l generalizing a with
  | nil => simp [String.append_empty]
  | cons b bs ih =>
    rw [List.foldl_cons, List.foldl_cons, ih (a ++ b), ih ("" ++ b),
      String.empty_append, String.append_assoc]

theorem string_join_cons (a : String) (l : List String) :
    String.join (a :: l) = a ++ String.join l := by
  rw [String.join, String.join, List.foldl_cons, String.empty_append,
    string_foldl_append]

theorem fsLookup_write_self (fs : FS) (p c : String) :
    fsLookup (fsWrite fs p c) p = some c := by
  simp [fsWrite, fsLookup]

theorem fsLookup_write_ne (fs : FS) (p q c : String) (h : ¬ p = q) :
    fsLookup (fsWrite fs p c) q = fsLookup fs q := by
  simp [fsWrite, fsLookup, h]

theorem fsWriteIfAbsent_preserves (fs : FS) (p txt q c : String)
    (h : fsLookup fs q = some c) :
    fsLookup (if fsExists fs p then fs else fsWrite fs p txt) q = some c := by
  by_cases hp : fsExists fs p = true
  · rw [if_pos hp]
    exact h
  · rw [if_neg hp]
    have hne : ¬ p = q := by
      intro e
      subst e
      exact hp (by simp [fsExists, h])
    rw [fsLookup_write_ne fs p q txt hne]
    exact h

theorem write_vhost_step_preserves (fs : FS) (s : SiteSettings) (p c : String)
    (h : fsLookup fs p = some c) :
    fsLookup (write_vhost_step fs s) p = some c :=
  fsWriteIfAbsent_preserves _ defaultConfPath default_vhost_text p c
    (fsWriteIfAbsent_preserves fs (vhostPath s.domain) s.apache_config p c h)

theorem write_vhosts_preserves (sites : List SiteSettings) (fs : FS) (p c : String)
    (h : fsLookup fs p = some c) :
    fsLookup (write_vhosts sites fs) p = some c := by
  induction sites generalizing fs with
  | nil => exact h
  | cons s rest ih => exact ih _ (write_vhost_step_preserves fs s p c h)

theorem fold_append_sql (sites : List SiteSettings) (fs : FS) (t : String)
    (h : fsLookup fs sqlPath = some t) :
    fsLookup (sites.foldl (fun acc s => fsAppend acc sqlPath s.db_script) fs) sqlPath =
      some (t ++ String.join (sites.map SiteSettings.db_script)) := by
  induction sites generalizing fs t with
  | nil =>
    rw [List.foldl_nil, List.map_nil, show String.join [] = "" from rfl,
      String.append_empty]
    exact h
  | cons s rest ih =>
    have h1 : fsLookup (fsAppend fs sqlPath s.db_script) sqlPath =
        some (t ++ s.db_script) := by
      simp [fsAppend, h, fsLookup_write_self]
    rw [List.foldl_cons, ih _ _ h1, List.map_cons, string_join_cons,
      String.append_assoc]

theorem sqlPath_ne_defaultConf : ¬ sqlPath = defaultConfPath := by decide

theorem vhostPath_ne_sqlPath (d : String) : ¬ vhostPath d = sqlPath := by
  intro h
  have hpre : ("/etc/apache2/sites-enabled/" : String).data <+: (vhostPath d).data := by
    rw [vhostPath, String.data_append, String.data_append]
    exact ⟨d.data ++ (".conf" : String).data, by simp [List.append_assoc]⟩
  rw [h] at hpre
  exact absurd hpre (by decide)

theorem vhostPath_inj_default (d : String) (h : vhostPath d = defaultConfPath) :
    d = "default" := by
  have h2 : (vhostPath d).data = (vhostPath "default").data := by
    rw [h]
    rfl
  rw [vhostPath, vhostPath, String.data_append, String.data_append,
    String.data_append, String.data_append] at h2
  exact String.ext (List.append_cancel_left (List.append_cancel_right h2))

theorem fold_append_preserves (sites : List SiteSettings) (fs : FS) (q : String)
    (h : ¬ sqlPath = q) :
    fsLookup (sites.foldl (fun acc s => fsAppend acc sqlPath s.db_script) fs) q =
      fsLookup fs q := by
  induction sites generalizing fs with
  | nil => rfl
  | cons s rest ih => rw [List.foldl_cons, ih, fsAppend, fsLookup_write_ne _ _ _ _ h]

theorem prepare_preserves_ne (sites : List SiteSettings) (fs : FS) (q : String)
    (h : ¬ sqlPath = q) :
    fsLookup (prepare_site_db_scripts sites fs) q = fsLookup fs q :=
  (fold_append_preserves sites _ q h).trans (fsLookup_write_ne fs sqlPath q _ h)

theorem build_lamp_ok_shape (doc : Document) (rnds : Nat → Fin 32 → Fin 26)
    (rootRnd : Fin 32 → Fin 26) (e : Int) (fs fs' : FS)
    (hrun : build_lamp doc rnds rootRnd e fs = Except.ok fs') :
    fs' = write_vhosts (parse_sites doc.sites rnds)
      (prepare_site_db_scripts (parse_sites doc.sites rnds) fs) := by
  simp only [build_lamp] at hrun
  cases hinit : init_database doc.database rootRnd e with
  | error msg =>
    rw [hinit] at hrun
    exact Except.noConfusion hrun
  | ok p =>
    rw [hinit] at hrun
    simpa using hrun.symm

theorem write_vhost_step_default_absent (fs : FS) (s : SiteSettings)
    (habs : fsLookup fs defaultConfPath = none) :
    (s.domain = "default" →
      fsLookup (write_vhost_step fs s) defaultConfPath = some s.apache_config) ∧
    (¬ s.domain = "default" →
      fsLookup (write_vhost_step fs s) defaultConfPath = some default_vhost_text) := by
  constructor
  · intro hd
    have hpath : vhostPath s.domain = defaultConfPath := by
      rw [hd]
      rfl
    simp only [write_vhost_step, hpath]
    simp [fsExists, habs, fsLookup_write_self]
  · intro hd
    have hne : ¬ vhostPath s.domain = defaultConfPath :=
      fun h2 => hd (vhostPath_inj_default _ h2)
    simp only [write_vhost_step]
    by_cases hex : fsExists fs (vhostPath s.domain) = true
    · rw [if_pos hex]
      simp [fsExists, habs, fsLookup_write_self]
    · rw [if_neg hex]
      have habs1 : fsLookup (fsWrite fs (vhostPath s.domain) s.apache_config)
          defaultConfPath = none := by
        rw [fsLookup_write_ne _ _ _ _ hne]
        exact habs
      simp [fsExists, habs1, fsLookup_write_self]

theorem write_vhost_step_default_exists (fs : FS) (s : SiteSettings) :
    ∃ c, fsLookup (write_vhost_step fs s) defaultConfPath = some c := by
  simp only [write_vhost_step]
  by_cases h2 : fsExists (if fsExists fs (vhostPath s.domain) then fs
      else fsWrite fs (vhostPath s.domain) s.apache_config) defaultConfPath = true
  · rw [if_pos h2]
    rcases Option.isSome_iff_exists.mp (by simpa [fsExists] using h2) with ⟨c, hc⟩
    exact ⟨c, hc⟩
  · rw [if_neg h2]
    exact ⟨default_vhost_text, fsLookup_write_self _ _ _⟩

/-- C8: prepare_site_db_scripts opens the fixed-path init-SQL file in append
mode, so the resulting content of that file is its previous content (empty
when the file was absent) followed by the concatenation of the db_script
outputs of the given sites, one block per site, in list order. -/
theorem prepare_site_db_scripts_appends (sites : List SiteSettings) (fs : FS) :
    fsLookup (prepare_site_db_scripts sites fs) sqlPath =
      some ((fsLookup fs sqlPath).getD "" ++
        String.join (sites.map SiteSettings.db_script)) :=
  fold_append_sql sites _ _ (fsLookup_write_self fs sqlPath _)

/-- C7: a file present in the filesystem is never overwritten by the Apache
loop, however often it runs, and build_lamp preserves the content of every
pre-existing per-domain vhost file. -/
theorem vhosts_never_overwritten :
    (∀ (sites : List SiteSettings) (fs : FS) (p c : String),
      fsLookup fs p = some c → fsLookup (write_vhosts sites fs) p = some c) ∧
    (∀ (doc : Document) (rnds : Nat → Fin 32 → Fin 26) (rootRnd : Fin 32 → Fin 26)
      (e : Int) (fs fs' : FS) (d c : String),
      build_lamp doc rnds rootRnd e fs = Except.ok fs' →
      fsLookup fs (vhostPath d) = some c →
      fsLookup fs' (vhostPath d) = some c) := by
  constructor
  · exact write_vhosts_preserves
  · intro doc rnds rootRnd e fs fs' d c hrun h
    rw [build_lamp_ok_shape doc rnds rootRnd e fs fs' hrun]
    apply write_vhosts_preserves
    rw [prepare_preserves_ne _ _ _ (fun h2 => vhostPath_ne_sqlPath d h2.symm)]
    exact h

/-- C7 witness: a pre-existing vhost file for a.com keeps its content through
the Apache loop and through a full successful build_lamp run. -/
theorem vhosts_never_overwritten_witness :
    fsLookup (write_vhosts [SiteSettings.make "a.com" none (fun _ => 0)]
        [(vhostPath "a.com", "old")]) (vhostPath "a.com") = some "old" ∧
    (build_lamp ⟨[("a.com", none)], ⟨none, some "x"⟩⟩ (fun _ _ => 0) (fun _ => 0) 0
        [(vhostPath "a.com", "old")]).map
      (fun f => fsLookup f (vhostPath "a.com")) = Except.ok (some "old") := by
  constructor
  · exact vhosts_never_overwritten.1 [SiteSettings.make "a.com" none (fun _ => 0)]
      [(vhostPath "a.com", "old")] (vhostPath "a.com") "old" rfl
  · obtain ⟨x, hx⟩ : ∃ x, build_lamp ⟨[("a.com", none)], ⟨none, some "x"⟩⟩
        (fun _ _ => 0) (fun _ => 0) 0 [(vhostPath "a.com", "old")] = Except.ok x :=
      ⟨_, rfl⟩
    rw [hx]
    show Except.ok (fsLookup x (vhostPath "a.com")) = Except.ok (some "old")
    exact congrArg Except.ok (vhosts_never_overwritten.2 _ _ _ _ _ _ "a.com" "old" hx rfl)

/-- C5 (amended): the default-vhost check of build_lamp runs inside the site
loop, immediately after each per-site vhost write, not after all of them.
Consequently, when no default vhost file exists beforehand, a site whose
domain is default receives its own apache_config at the default vhost path,
and the synthesized pair is suppressed, exactly when that site is the first
entry of the sites mapping; when the first entry is any other domain, the
synthesized 404-redirect pair is written at the default vhost path during the
first iteration. -/
theorem build_lamp_default_vhost_order (doc : Document) (rnds : Nat → Fin 32 → Fin 26)
    (rootRnd : Fin 32 → Fin 26) (e : Int) (fs fs' : FS)
    (k : String) (v : Option SiteOptions) (rest : List (String × Option SiteOptions))
    (hsites : doc.sites = (k, v) :: rest)
    (hrun : build_lamp doc rnds rootRnd e fs = Except.ok fs')
    (habs : fsLookup fs defaultConfPath = none) :
    (k = "default" →
      fsLookup fs' defaultConfPath =
        some (SiteSettings.make k v (rnds 0)).apache_config) ∧
    (¬ k = "default" →
      fsLookup fs' defaultConfPath = some default_vhost_text) := by
  have hshape := build_lamp_ok_shape doc rnds rootRnd e fs fs' hrun
  subst hshape
  rw [hsites]
  have habs1 : fsLookup (prepare_site_db_scripts
      (parse_sites ((k, v) :: rest) rnds) fs) defaultConfPath = none := by
    rw [prepare_preserves_ne _ _ _ sqlPath_ne_defaultConf]
    exact habs
  have hp : parse_sites ((k, v) :: rest) rnds
      = SiteSettings.make k v (rnds 0) :: parse_sites_from 1 rest rnds := rfl
  rw [hp] at habs1 ⊢
  constructor
  · intro hk
    exact write_vhosts_preserves (parse_sites_from 1 rest rnds)
      (write_vhost_step (prepare_site_db_scripts
        (SiteSettings.make k v (rnds 0) :: parse_sites_from 1 rest rnds) fs)
        (SiteSettings.make k v (rnds 0))) defaultConfPath _
      ((write_vhost_step_default_absent _ (SiteSettings.make k v (rnds 0)) habs1).1 hk)
  · intro hk
    exact write_vhosts_preserves (parse_sites_from 1 rest rnds)
      (write_vhost_step (prepare_site_db_scripts
        (SiteSettings.make k v (rnds 0) :: parse_sites_from 1 rest rnds) fs)
        (SiteSettings.make k v (rnds 0))) defaultConfPath _
      ((write_vhost_step_default_absent _ (SiteSettings.make k v (rnds 0)) habs1).2 hk)

/-- C5 witness: the amended statement at a document whose only site is the
default site, starting from an empty filesystem. -/
theorem build_lamp_default_vhost_order_witness :
    (build_lamp ⟨[("default", none)], ⟨none, some "x"⟩⟩ (fun _ _ => 0)
        (fun _ => 0) 0 []).map (fun f => fsLookup f defaultConfPath) =
      Except.ok (some (SiteSettings.make "default" none (fun _ => 0)).apache_config) := by
  obtain ⟨x, hx⟩ : ∃ x, build_lamp ⟨[("default", none)], ⟨none, some "x"⟩⟩
      (fun _ _ => 0) (fun _ => 0) 0 [] = Except.ok x := ⟨_, rfl⟩
  rw [hx]
  show Except.ok (fsLookup x defaultConfPath) =
    Except.ok (some (SiteSettings.make "default" none (fun _ => 0)).apache_config)
  exact congrArg Except.ok
    ((build_lamp_default_vhost_order ⟨[("default", none)], ⟨none, some "x"⟩⟩
      (fun _ _ => 0) (fun _ => 0) 0 [] x "default" none [] rfl hx rfl).1 rfl)

/-- C5 counterexample: with the sites mapping listing a.com before default and
no pre-existing files, build_lamp puts the synthesized 404-redirect pair at
the default vhost path, not the apache_config output of the default site, so
per-site vhost writing does not all happen before default synthesis. -/
theorem build_lamp_default_order_counterexample :
    (build_lamp ⟨[("a.com", none), ("default", none)], ⟨none, some "x"⟩⟩
        (fun _ _ => 0) (fun _ => 0) 0 []).map
      (fun f => fsLookup f defaultConfPath) = Except.ok (some default_vhost_text) ∧
    ¬ default_vhost_text =
      (SiteSettings.make "default" none (fun _ => 0)).apache_config := by
  constructor
  · rfl
  · decide

/-- C6 (amended): after a successful build_lamp on a document with a
non-empty sites mapping, a file exists at the default vhost path; when no
default vhost file existed beforehand and the first site of the mapping is
not the default site, that file is the synthesized pair of a ServerName
default vhost and a wildcard vhost, both 404-redirecting to root.  With an
empty sites mapping the Apache loop never runs and no default vhost is
created. -/
theorem build_lamp_default_vhost_exists (doc : Document) (rnds : Nat → Fin 32 → Fin 26)
    (rootRnd : Fin 32 → Fin 26) (e : Int) (fs fs' : FS)
    (hrun : build_lamp doc rnds rootRnd e fs = Except.ok fs')
    (hne : ¬ doc.sites = []) :
    (∃ c, fsLookup fs' defaultConfPath = some c) ∧
    (fsLookup fs defaultConfPath = none →
      ∀ k v rest, doc.sites = (k, v) :: rest → ¬ k = "default" →
        fsLookup fs' defaultConfPath = some default_vhost_text) := by
  constructor
  · have hshape := build_lamp_ok_shape doc rnds rootRnd e fs fs' hrun
    subst hshape
    cases hsites : doc.sites with
    | nil => exact absurd hsites hne
    | cons kv rest =>
      cases kv with
      | mk k v =>
        have hp : parse_sites ((k, v) :: rest) rnds
            = SiteSettings.make k v (rnds 0) :: parse_sites_from 1 rest rnds := rfl
        rw [hp]
        obtain ⟨c, hc⟩ := write_vhost_step_default_exists
          (prepare_site_db_scripts
            (SiteSettings.make k v (rnds 0) :: parse_sites_from 1 rest rnds) fs)
          (SiteSettings.make k v (rnds 0))
        exact ⟨c, write_vhosts_preserves (parse_sites_from 1 rest rnds) _ _ _ hc⟩
  · intro habs k v rest hsites hk
    exact (build_lamp_default_vhost_order doc rnds rootRnd e fs fs' k v rest
      hsites hrun habs).2 hk

/-- C6 witness: the amended statement at a one-site document with a non-default
site and an empty starting filesystem. -/
theorem build_lamp_default_vhost_exists_witness :
    (build_lamp ⟨[("a.com", none)], ⟨none, some "x"⟩⟩ (fun _ _ => 0)
        (fun _ => 0) 0 []).map (fun f => fsLookup f defaultConfPath) =
      Except.ok (some default_vhost_text) := by
  obtain ⟨x, hx⟩ : ∃ x, build_lamp ⟨[("a.com", none)], ⟨none, some "x"⟩⟩
      (fun _ _ => 0) (fun _ => 0) 0 [] = Except.ok x := ⟨_, rfl⟩
  rw [hx]
  show Except.ok (fsLookup x defaultConfPath) = Except.ok (some default_vhost_text)
  exact congrArg Except.ok
    ((build_lamp_default_vhost_exists ⟨[("a.com", none)], ⟨none, some "x"⟩⟩
      (fun _ _ => 0) (fun _ => 0) 0 [] x hx (by simp)).2 rfl "a.com" none [] rfl
      (by decide))

/-- C6 counterexample: on a document whose sites mapping is empty, build_lamp
completes and no default vhost file exists afterwards. -/
theorem build_lamp_empty_sites_counterexample :
    (build_lamp ⟨[], ⟨none, some "x"⟩⟩ (fun _ _ => 0) (fun _ => 0) 0 []).map
      (fun f => fsLookup f defaultConfPath) = Except.ok none := by
  rfl

/-- C4 witness: the amended statement at the a.com Site with two aliases. -/
theorem apache_config_server_lines_witness :
    serverNameTexts (SiteSettings.make "a.com"
        (some ⟨none, none, some "pw", some ["www.a.com", "b.org"]⟩)
        (fun _ => 0)).apache_config = ["a.com"] ∧
    serverAliasTexts (SiteSettings.make "a.com"
        (some ⟨none, none, some "pw", some ["www.a.com", "b.org"]⟩)
        (fun _ => 0)).apache_config = ["www.a.com", "b.org"] :=
  (apache_config_server_lines "a.com"
    (some ⟨none, none, some "pw", some ["www.a.com", "b.org"]⟩) (fun _ => 0)
    (by decide) (by decide) (by decide)).2 (by decide)

/-- C4 counterexample: an alias value containing a newline and a ServerAlias
directive produces two ServerAlias lines for one alias element, and a domain
equal to the placeholder string makes str.replace substitute the ServerName
block into the DocumentRoot line as well, producing two ServerName lines.
Either Site refutes the claim as stated for every Site. -/
theorem apache_config_lines_counterexample :
    (¬ (serverAliasTexts (SiteSettings.make "a.com"
        (some ⟨none, none, some "pw", some ["x\nServerAlias y"]⟩)
        (fun _ => 0)).apache_config).length =
      ((SiteSettings.make "a.com"
        (some ⟨none, none, some "pw", some ["x\nServerAlias y"]⟩)
        (fun _ => 0)).alias).length) ∧
    ¬ (serverNameTexts (SiteSettings.make "__ServerName__place__holder" none
        (fun _ => 0)).apache_config).length = 1 := by
  constructor
  · decide
  · decide

/-- C10: db_script interpolates db_password verbatim between single quotes,
with no escaping: for every Site, the password bracketed in quotes after
IDENTIFIED BY occurs literally as a substring of the SQL text, whatever
characters the password holds. -/
theorem db_script_password_verbatim (s : SiteSettings) :
    ∃ pre post, (s.db_script).data =
      pre ++ ("IDENTIFIED BY \x27".data ++ s.db_password.data ++ "\x27".data) ++ post := by
  refine ⟨("\n            CREATE DATABASE IF NOT EXISTS " ++ s.db_name ++
      "; \n            CREATE USER \x27" ++ s.db_username ++ "\x27@\x27%\x27 ").data,
    (" ;\n            GRANT ALL ON " ++ s.db_name ++ ".* TO \x27" ++
      s.db_username ++ "\x27@\x27%\x27 ;\n        ").data, ?_⟩
  simp [SiteSettings.db_script, String.data_append, List.append_assoc]
